/-
Verification of the anti-CSRF filter in ckanext/qgov/common/anti_csrf.py.

The module implements the Double-Submit-Cookie CSRF pattern for a pylons
web application.  We give a shallow embedding of its request-side state
machine (token resolution, validation, the wrapped pre-dispatch hook) and
of its HTML-rewriting pass, and prove the specified properties.

Modelling conventions:
  * The pylons request/response pair is threaded explicitly as a
    `RequestState` record: incoming cookies, GET and POST multidicts
    (ordered lists of key/value pairs, as webob MultiDict), the two webob
    ad-hoc attributes the module uses (`server_token` and `token`), and
    the list of response cookies scheduled by `response.set_cookie`.
  * `abort(403, ...)` raised by `csrf_fail` is modelled with `Except`:
    a function that may abort returns `Except CsrfFailure result`.
  * `binascii.hexlify(os.urandom(32))` is an external randomness source;
    it is passed in as an explicit `freshToken` argument.
  * Python truthiness of cookie values ("" is falsy) is made explicit in
    `is_logged_in`.
-/
import Mathlib

namespace AntiCsrf

/-- Decidable equality for `Except` results, so that concrete runs of the
model can be evaluated inside proofs. -/
instance {ε α : Type} [DecidableEq ε] [DecidableEq α] : DecidableEq (Except ε α) := fun x y =>
  match x, y with
  | Except.error a, Except.error b =>
    if h : a = b then Decidable.isTrue (by rw [h]) else Decidable.isFalse (by simp [h])
  | Except.ok a, Except.ok b =>
    if h : a = b then Decidable.isTrue (by rw [h]) else Decidable.isFalse (by simp [h])
  | Except.error _, Except.ok _ => Decidable.isFalse (by simp)
  | Except.ok _, Except.error _ => Decidable.isFalse (by simp)

/-- `TOKEN_FIELD_NAME = 'token'`: used as the cookie name and input field
name. -/
def TOKEN_FIELD_NAME : String := "token"

/-- A cookie scheduled on the response by `response.set_cookie(name, value,
max_age=..., httponly=...)`. -/
structure SetCookie where
  name : String
  value : String
  max_age : Nat
  httponly : Bool
deriving DecidableEq, Repr

/-- The per-request state the module reads and writes: the pylons `request`
(method, path, cookies, GET/POST params, webob ad-hoc attributes) together
with the cookies scheduled on the `response`.  GET and POST are webob
MultiDicts, modelled as ordered lists of key/value pairs. -/
structure RequestState where
  method : String
  path : String
  cookies : List (String × String)
  getParams : List (String × String)
  postParams : List (String × String)
  /-- webob ad-hoc attribute `request.server_token` (set by
  `get_server_token`). -/
  server_token : Option String
  /-- webob ad-hoc attribute `request.token` (set by `get_post_token`). -/
  tokenAttr : Option String
  respCookies : List SetCookie
deriving DecidableEq, Repr

/-- `d.getall(k)` on a webob MultiDict: all values stored under key `k`,
in order. -/
def getall (d : List (String × String)) (k : String) : List String :=
  (d.filter (fun p => p.1 == k)).map Prod.snd

/-- `del d[k]` on a webob MultiDict: drop every pair whose key is `k`. -/
def delKey (d : List (String × String)) (k : String) : List (String × String) :=
  d.filter (fun p => p.1 != k)

/-- `is_logged_in()`: `request.cookies.get("auth_tkt")`, used for its Python
truthiness (absent and empty-string cookies are both falsy). -/
def is_logged_in (st : RequestState) : Bool :=
  match List.lookup "auth_tkt" st.cookies with
  | some v => v != ""
  | none => false

/-- A Python `\w` character (the source is Python 2 with byte strings, so
`\w` is `[a-zA-Z0-9_]`). -/
def isWordChar (c : Char) : Bool :=
  c.isAlphanum || c == '_'

/-- `API_URL = re.compile(r'^/api\b.*')` used via `API_URL.match(path)`:
the path starts with `/api` and the next position is a word boundary
(end of string or a non-word character). -/
def api_url_match (path : String) : Bool :=
  match path.toList with
  | '/' :: 'a' :: 'p' :: 'i' :: rest =>
    match rest with
    | [] => true
    | c :: _ => !isWordChar c
  | _ => false

/-- `is_request_exempt()`: not logged in, or an API path, or a safe
method. -/
def is_request_exempt (st : RequestState) : Bool :=
  !is_logged_in st || api_url_match st.path
    || (st.method == "GET" || st.method == "HEAD" || st.method == "OPTIONS")

/-- The effect of `csrf_fail(message)`: the specific `message` goes to
`LOG.error` only; the client sees `abort(403, "Your form submission could
not be validated")`. -/
structure CsrfFailure where
  log : String
  status : Nat
  client : String
deriving DecidableEq, Repr

/-- `csrf_fail(message)`: log the specific reason, abort with the generic
403 message. -/
def csrf_fail (message : String) : CsrfFailure :=
  { log := message
    status := 403
    client := "Your form submission could not be validated" }

/-- The test `token.strip() == ""` on a Python 2 byte string: every
character is ASCII whitespace (in particular, the empty string is
blank). -/
def isBlank (s : String) : Bool :=
  s.toList.all (fun c =>
    c == ' ' || c == '\t' || c == '\n' || c == '\r' || c == '\x0b' || c == '\x0c')

/-- `get_server_token()`: the cached `request.server_token` attribute if
present, else the popped `token` cookie if present, else a freshly
generated token (with a response cookie scheduled: max-age 600, HTTP-only).
A blank resolved token aborts; otherwise the token is cached on the request
and returned.  `freshToken` stands for `binascii.hexlify(os.urandom(32))`. -/
def get_server_token (freshToken : String) (st : RequestState) :
    Except CsrfFailure (String × RequestState) :=
  let resolved : String × RequestState :=
    match st.server_token with
    | some t => (t, st)
    | none =>
      match List.lookup TOKEN_FIELD_NAME st.cookies with
      | some t => (t, { st with cookies := delKey st.cookies TOKEN_FIELD_NAME })
      | none =>
        (freshToken,
          { st with respCookies :=
              st.respCookies ++ [⟨TOKEN_FIELD_NAME, freshToken, 600, true⟩] })
  if isBlank resolved.1 then
    Except.error (csrf_fail "Server token is blank")
  else
    Except.ok (resolved.1, { resolved.2 with server_token := some resolved.1 })

/-- The guard of the query-string special case in `get_post_token`:
`not request.POST and len(request.GET) == 1 and
len(request.GET.getall(TOKEN_FIELD_NAME)) == 1`. -/
def fallbackCond (st : RequestState) : Bool :=
  st.postParams.isEmpty && st.getParams.length == 1
    && (getall st.getParams TOKEN_FIELD_NAME).length == 1

/-- `get_post_token()`: the cached `request.token` attribute if present;
else, when the POST body is empty and the query string consists of exactly
the token parameter once, consume that query value; else exactly one POST
occurrence of the token field is consumed (zero aborts with "missing",
more than one with "duplicate").  The consumed value is cached on the
request and deleted from the parameter set it came from.  `headD` plays
the role of `GET.getone`, which under the guard sees exactly one value. -/
def get_post_token (st : RequestState) :
    Except CsrfFailure (String × RequestState) :=
  match st.tokenAttr with
  | some t => Except.ok (t, st)
  | none =>
    if fallbackCond st then
      let t := (getall st.getParams TOKEN_FIELD_NAME).headD ""
      Except.ok (t, { st with
        tokenAttr := some t
        getParams := delKey st.getParams TOKEN_FIELD_NAME })
    else
      match getall st.postParams TOKEN_FIELD_NAME with
      | [] => Except.error (csrf_fail "Missing CSRF token in form submission")
      | [t] =>
        Except.ok (t, { st with
          tokenAttr := some t
          postParams := delKey st.postParams TOKEN_FIELD_NAME })
      | _ :: _ :: _ =>
        Except.error (csrf_fail "More than one CSRF token in form submission")

/-- The arguments the original pre-dispatch hook
`RAW_BEFORE = base.BaseController.__before__` receives when called. -/
structure BeforeCall where
  controllerId : Nat
  action : String
  params : List (String × String)
deriving DecidableEq, Repr

/-- The call `RAW_BEFORE(obj, action)`: the original hook is external
(ckan `base.BaseController.__before__`), so we record the arguments it is
invoked with; the source passes only the controller and the action, so the
keyword-parameter dictionary it receives is empty. -/
def RAW_BEFORE (controllerId : Nat) (action : String) : BeforeCall :=
  { controllerId := controllerId, action := action, params := [] }

/-- `anti_csrf_before(obj, action, **params)`: on a non-exempt request,
compare the server token with the submitted token and abort on mismatch
(or whenever either resolution aborts); then call `RAW_BEFORE(obj,
action)`.  `params` is received by the wrapper but never used. -/
def anti_csrf_before (freshToken : String) (controllerId : Nat)
    (action : String) (params : List (String × String)) (st : RequestState) :
    Except CsrfFailure (BeforeCall × RequestState) :=
  if !is_request_exempt st then
    match get_server_token freshToken st with
    | Except.error e => Except.error e
    | Except.ok (serverTok, st1) =>
      match get_post_token st1 with
      | Except.error e => Except.error e
      | Except.ok (postTok, st2) =>
        if serverTok != postTok then
          Except.error (csrf_fail "Could not match session token with form token")
        else
          Except.ok (RAW_BEFORE controllerId action, st2)
  else
    Except.ok (RAW_BEFORE controllerId action, st)

/-!
## HTML rewriting (`apply_token`)

The rewriter works by regular-expression substitution over the rendered
HTML string.  We embed the document at the granularity the patterns
operate on: a list of elements, where an element is either inert markup
text, a `<form>` opening tag together with what immediately follows it, or
an `<a>` tag.  Each pattern of the source is embedded as a match
condition/substitution on one element:

  * `POST_FORM = r'(<form [^>]*method=["\x7d']post["\x7d'][^>]*>)([^<]*\s<)'`
    matches a form element when its opening tag carries `method="post"`
    (`methodPost`), nothing has been injected directly after the opening
    tag (`injectedToken = none`, since an injected
    `<input .../>` makes the text after the tag start with `<`, so
    `[^<]*\s<` cannot match), and the original run of non-`<` characters
    after the tag ends in whitespace before the next `<` (`gapMatches`).
    Its substitution inserts the token field right after the opening tag,
    i.e. sets `injectedToken`.  Crucially, `re.sub` performs a
    non-overlapping left-to-right scan and the match's second group
    CONSUMES the terminating `<` — which, at this segmentation, is the
    first character of the NEXT element.  The scan resumes past that `<`,
    so the element immediately following a match cannot itself start a
    match in the same pass (it is written back unchanged); later elements
    remain eligible.  `post_form_sub` embeds exactly this scan.  A form
    element whose own opening `<` was consumed is left intact in the
    output and can match in a LATER pass — `POST_FORM.sub` is therefore
    not idempotent on adjacent matching forms.
  * `TOKEN_SEARCH_PATTERN =
    '<input type="hidden" name="token" value="([0-9a-f]+)"/>'` (no
    IGNORECASE) finds the first injected field whose value is nonempty
    lowercase hex.
  * `CONFIRM_LINK` matches an anchor with a `data-module="confirm-action"`
    marker before its `href` whose href content is nonempty and free of
    `?` and quote characters; `CONFIRM_LINK_REVERSED` matches the marker
    after the `href` under the same href condition.  Both substitutions
    append `?token=<token>` to the href content, just before the closing
    quote.
-/

/-- One chunk of the rendered HTML document, at the granularity of the
source's regular expressions. -/
inductive Elem where
  /-- Markup not matched by any of the patterns. -/
  | text (s : String)
  /-- A `<form ...>` opening tag: whether its attributes carry
  `method="post"`, the token field injected immediately after the opening
  tag (if any), and whether the original text between the opening tag and
  the next `<` matches `[^<]*\s` (ends in whitespace). -/
  | form (methodPost : Bool) (injectedToken : Option String) (gapMatches : Bool)
  /-- An `<a ...>` tag: whether a `data-module="confirm-action"` marker
  occurs before the `href` attribute, whether one occurs after it, and the
  href content up to its closing quote. -/
  | anchor (markerBefore markerAfter : Bool) (href : String)
deriving DecidableEq, Repr

/-- Whether `POST_FORM` matches at this element (see the section comment). -/
def formMatches : Elem → Bool
  | .form methodPost injectedToken gapMatches =>
    methodPost && injectedToken.isNone && gapMatches
  | _ => false

/-- The value is a nonempty string of `[0-9a-f]` characters, as required
by `TOKEN_SEARCH_PATTERN`'s capture group. -/
def isHexToken (s : String) : Bool :=
  !(s == "") && s.toList.all (fun c => c.isDigit || (decide ('a' ≤ c) && decide (c ≤ 'f')))

/-- `TOKEN_SEARCH_PATTERN.search(html)`: the first already-embedded token
field whose value the pattern can match. -/
def findEmbeddedToken : List Elem → Option String
  | [] => none
  | .form _ (some t) _ :: rest =>
    if isHexToken t then some t else findEmbeddedToken rest
  | _ :: rest => findEmbeddedToken rest

/-- `insert_form_token` (the replacement function of `POST_FORM.sub`):
insert the hidden token field immediately after the opening tag of a
matching form. -/
def insert_form_token (t : String) : Elem → Elem
  | .form methodPost injectedToken gapMatches =>
    if methodPost && injectedToken.isNone && gapMatches then
      .form methodPost (some t) gapMatches
    else
      .form methodPost injectedToken gapMatches
  | e => e

/-- `POST_FORM.sub(insert_form_token, html)`: the non-overlapping
left-to-right scan of `re.sub`.  When an element matches, its replacement
is emitted and — because the match's `[^<]*\s<` group consumed the opening
`<` of the next element — the scan resumes past that `<`: the immediately
following element is written back unchanged and cannot start a match in
this pass, while scanning continues with the elements after it. -/
def post_form_sub (t : String) : List Elem → List Elem
  | [] => []
  | e :: rest =>
    if formMatches e then
      insert_form_token t e ::
        (match rest with
         | [] => []
         | e2 :: rest2 => e2 :: post_form_sub t rest2)
    else
      e :: post_form_sub t rest

/-- No element matched by `POST_FORM` is immediately followed by another
matching element: under this condition the `[^<]*\s<` group of a match
never consumes the opening `<` of another matching form, so the scan of
`post_form_sub` skips nothing it would otherwise rewrite. -/
def noAdjacentFormMatches : List Elem → Bool
  | e1 :: e2 :: rest =>
    !(formMatches e1 && formMatches e2) && noAdjacentFormMatches (e2 :: rest)
  | _ => true

/-- The href content contains no `?` and no quote character, and is
nonempty: the `[^"'?]+` requirement shared by both confirm-link
patterns. -/
def hrefPlain (s : String) : Bool :=
  !(s == "") && s.toList.all (fun c => !(c == '?' || c == '"' || c == '\''))

/-- `insert_link_token` applied by `CONFIRM_LINK.sub`: for an anchor whose
confirm-action marker precedes a `?`-and-quote-free href, append
`?token=<t>` to the href content. -/
def insert_link_token_CL (t : String) : Elem → Elem
  | .anchor markerBefore markerAfter href =>
    if markerBefore && hrefPlain href then
      .anchor markerBefore markerAfter (href ++ "?" ++ TOKEN_FIELD_NAME ++ "=" ++ t)
    else
      .anchor markerBefore markerAfter href
  | e => e

/-- `insert_link_token` applied by `CONFIRM_LINK_REVERSED.sub`: the same
substitution for an anchor whose marker follows the href. -/
def insert_link_token_CLR (t : String) : Elem → Elem
  | .anchor markerBefore markerAfter href =>
    if markerAfter && hrefPlain href then
      .anchor markerBefore markerAfter (href ++ "?" ++ TOKEN_FIELD_NAME ++ "=" ++ t)
    else
      .anchor markerBefore markerAfter href
  | e => e

/-- `apply_token(html)`: skip unless logged in and `POST_FORM` matches
somewhere; reuse an already-embedded token when `TOKEN_SEARCH_PATTERN`
finds one, else resolve via `get_server_token` (which may abort); then
substitute `POST_FORM`, then `CONFIRM_LINK`, then
`CONFIRM_LINK_REVERSED`. -/
def apply_token (freshToken : String) (st : RequestState) (html : List Elem) :
    Except CsrfFailure (List Elem × RequestState) :=
  if !is_logged_in st || !(html.any formMatches) then
    Except.ok (html, st)
  else
    let tokenRes : Except CsrfFailure (String × RequestState) :=
      match findEmbeddedToken html with
      | some t => Except.ok (t, st)
      | none => get_server_token freshToken st
    match tokenRes with
    | Except.error e => Except.error e
    | Except.ok (token, st1) =>
      Except.ok
        (((post_form_sub token html).map
            (insert_link_token_CL token)).map (insert_link_token_CLR token),
          st1)

/-!
## Shared lemmas
-/

/-- Deleting one key leaves lookups of any other key unchanged. -/
lemma lookup_delKey (k k2 : String) (l : List (String × String)) (hk : k ≠ k2) :
    List.lookup k (delKey l k2) = List.lookup k l := by
  induction l with
  | nil => rfl
  | cons p rest ih =>
    rcases p with ⟨a, b⟩
    by_cases hp : a = k2
    · subst hp
      have h2 : (k == a) = false := beq_eq_false_iff_ne.mpr hk
      simp only [delKey, List.filter_cons, bne_self_eq_false, Bool.false_eq_true,
        if_false, List.lookup, h2]
      simpa [delKey] using ih
    · have h1 : (a != k2) = true := bne_iff_ne.mpr hp
      simp only [delKey, List.filter_cons, h1, if_true, List.lookup]
      by_cases hka : k = a
      · simp [hka]
      · have h2 : (k == a) = false := beq_eq_false_iff_ne.mpr hka
        simp only [h2]
        simpa [delKey] using ih

/-- After deleting a key from a MultiDict, `getall` of that key is empty. -/
lemma getall_delKey (l : List (String × String)) (k : String) :
    getall (delKey l k) k = [] := by
  induction l with
  | nil => rfl
  | cons p rest ih =>
    by_cases hp : p.1 = k
    · simpa [delKey, getall, List.filter, hp] using ih
    · have h1 : (p.1 != k) = true := by simpa [bne] using hp
      have h2 : (p.1 == k) = false := by simpa using hp
      simp only [delKey, List.filter, h1, getall, List.map, h2]
      simpa [delKey, getall] using ih

/-- A successful `get_server_token` caches exactly the returned token, and
that token is not blank. -/
lemma get_server_token_ok (freshToken : String) (st st1 : RequestState) (t : String)
    (h : get_server_token freshToken st = Except.ok (t, st1)) :
    st1.server_token = some t ∧ isBlank t = false := by
  unfold get_server_token at h
  rcases hb : st.server_token with _ | t0 <;>
    rcases hc : List.lookup TOKEN_FIELD_NAME st.cookies with _ | c <;>
      simp only [hb, hc] at h <;> split at h
  all_goals
    first
    | exact (Except.noConfusion h)
    | (rw [Except.ok.injEq, Prod.mk.injEq] at h
       obtain ⟨rfl, rfl⟩ := h
       simp_all)

/-- Every abort raised by `get_server_token` is the blank-server-token
failure. -/
lemma get_server_token_error (freshToken : String) (st : RequestState) (e : CsrfFailure)
    (h : get_server_token freshToken st = Except.error e) :
    e = csrf_fail "Server token is blank" := by
  unfold get_server_token at h
  rcases hb : st.server_token with _ | t0 <;>
    rcases hc : List.lookup TOKEN_FIELD_NAME st.cookies with _ | c <;>
      simp only [hb, hc] at h <;> split at h <;>
        simp_all

/-- Every abort raised by `get_post_token` is either the missing-token or
the duplicate-token failure. -/
lemma get_post_token_error (st : RequestState) (e : CsrfFailure)
    (h : get_post_token st = Except.error e) :
    e = csrf_fail "Missing CSRF token in form submission" ∨
      e = csrf_fail "More than one CSRF token in form submission" := by
  unfold get_post_token at h
  rcases ha : st.tokenAttr with _ | t <;> simp only [ha] at h
  · split at h
    · simp_all
    · rcases hg : getall st.postParams TOKEN_FIELD_NAME with _ | ⟨v, _ | ⟨v2, rest⟩⟩ <;>
        simp_all
  · simp_all

/-- On an exempt request the wrapped hook calls the original with the
controller and the action and leaves the whole request state unchanged. -/
lemma anti_csrf_before_exempt (freshToken : String) (controllerId : Nat)
    (action : String) (params : List (String × String)) (st : RequestState)
    (h : is_request_exempt st = true) :
    anti_csrf_before freshToken controllerId action params st
      = Except.ok (RAW_BEFORE controllerId action, st) := by
  unfold anti_csrf_before
  simp [h]

/-- The three exemption conditions make `is_request_exempt` true. -/
lemma is_request_exempt_of (st : RequestState)
    (h : is_logged_in st = false ∨ api_url_match st.path = true ∨
      st.method = "GET" ∨ st.method = "HEAD" ∨ st.method = "OPTIONS") :
    is_request_exempt st = true := by
  unfold is_request_exempt
  rcases h with h | h | h | h | h <;> simp [h]


lemma formMatches_insert_form_token (t : String) (e : Elem) :
    formMatches (insert_form_token t e) = false := by
  cases e with
  | text s => rfl
  | anchor mb ma href => rfl
  | form methodPost injectedToken gapMatches =>
    by_cases h : methodPost && injectedToken.isNone && gapMatches
    · simp [insert_form_token, h, formMatches]
    · simp only [insert_form_token, h, if_false, Bool.false_eq_true]
      simpa [formMatches] using h

lemma formMatches_insert_link_CL (t : String) (e : Elem) :
    formMatches (insert_link_token_CL t e) = formMatches e := by
  cases e with
  | text s => rfl
  | form a b c => rfl
  | anchor mb ma href =>
    by_cases h : mb && hrefPlain href <;> simp [insert_link_token_CL, h, formMatches]

lemma formMatches_insert_link_CLR (t : String) (e : Elem) :
    formMatches (insert_link_token_CLR t e) = formMatches e := by
  cases e with
  | text s => rfl
  | form a b c => rfl
  | anchor mb ma href =>
    by_cases h : ma && hrefPlain href <;> simp [insert_link_token_CLR, h, formMatches]

lemma hrefPlain_append (href t : String) :
    hrefPlain (href ++ "?" ++ TOKEN_FIELD_NAME ++ "=" ++ t) = false := by
  have hq : '?' ∈ (href ++ "?" ++ TOKEN_FIELD_NAME ++ "=" ++ t).toList := by
    simp [String.toList, String.data_append]
  unfold hrefPlain
  have : ((href ++ "?" ++ TOKEN_FIELD_NAME ++ "=" ++ t).toList.all
      (fun c => !(c == '?' || c == '"' || c == '\''))) = false := by
    rw [List.all_eq_false]
    exact ⟨'?', hq, by decide⟩
  simp [this]


lemma noAdjacentFormMatches_tail (e : Elem) (rest : List Elem)
    (h : noAdjacentFormMatches (e :: rest) = true) :
    noAdjacentFormMatches rest = true := by
  cases rest with
  | nil => rfl
  | cons e2 rest2 =>
    unfold noAdjacentFormMatches at h
    simp only [Bool.and_eq_true] at h
    exact h.2

/-- Without adjacent matching forms the scan skips nothing rewritable, so
after one pass no element matches `POST_FORM` any more. -/
lemma post_form_sub_no_matches (t : String) :
    ∀ (n : Nat) (html : List Elem), html.length ≤ n →
      noAdjacentFormMatches html = true →
      (post_form_sub t html).any formMatches = false := by
  intro n
  induction n with
  | zero =>
    intro html hlen _
    rw [Nat.le_zero, List.length_eq_zero] at hlen
    subst hlen
    rfl
  | succ n ih =>
    intro html hlen hadj
    match html with
    | [] => rfl
    | e :: rest =>
      by_cases hm : formMatches e = true
      · unfold post_form_sub
        rw [if_pos hm]
        match rest with
        | [] =>
          simp [formMatches_insert_form_token]
        | e2 :: rest2 =>
          have hm2 : formMatches e2 = false := by
            have h1 : noAdjacentFormMatches (e :: e2 :: rest2) = true := hadj
            unfold noAdjacentFormMatches at h1
            simp only [hm, Bool.and_eq_true, Bool.true_and, Bool.not_eq_true',
              Bool.not_eq_eq_eq_not] at h1
            exact h1.1
          have hrest2 : noAdjacentFormMatches rest2 = true :=
            noAdjacentFormMatches_tail e2 rest2 (noAdjacentFormMatches_tail e (e2 :: rest2) hadj)
          have hlen2 : rest2.length ≤ n := by
            simp only [List.length_cons] at hlen
            omega
          simp [formMatches_insert_form_token, hm2, ih rest2 hlen2 hrest2]
      · unfold post_form_sub
        rw [if_neg hm]
        have hrest : noAdjacentFormMatches rest = true :=
          noAdjacentFormMatches_tail e rest hadj
        have hlenr : rest.length ≤ n := by
          simp only [List.length_cons] at hlen
          omega
        simp only [List.any_cons, ih rest hlenr hrest, Bool.or_false]
        simpa using hm

lemma no_form_matches_after_rewrite (t : String) (html : List Elem)
    (hadj : noAdjacentFormMatches html = true) :
    (((post_form_sub t html).map (insert_link_token_CL t)).map
      (insert_link_token_CLR t)).any formMatches = false := by
  rw [List.any_map, List.any_map, List.any_eq_false]
  intro e he
  simp only [Function.comp, formMatches_insert_link_CLR, formMatches_insert_link_CL]
  have hall := post_form_sub_no_matches t html.length html (Nat.le_refl _) hadj
  rw [List.any_eq_false] at hall
  exact hall e he

/-- C3 counterexample: on two adjacent matching POST forms the `[^<]*\s<`
group of the first match consumes the second form's opening `<`, so the
first pass skips the second form and a second application of `apply_token`
injects into it — the output of two applications differs from the output
of one, refuting idempotence. -/
theorem apply_token_not_idempotent_counterexample :
    apply_token "f" ⟨"GET", "/x", [("auth_tkt", "u"), ("token", "abc")], [], [],
        none, none, []⟩
      [Elem.form true none true, Elem.form true none true]
      = Except.ok ([Elem.form true (some "abc") true, Elem.form true none true],
          ⟨"GET", "/x", [("auth_tkt", "u")], [], [], some "abc", none, []⟩) ∧
    apply_token "g" ⟨"GET", "/x", [("auth_tkt", "u")], [], [], some "abc", none, []⟩
      [Elem.form true (some "abc") true, Elem.form true none true]
      = Except.ok
          ([Elem.form true (some "abc") true, Elem.form true (some "abc") true],
            ⟨"GET", "/x", [("auth_tkt", "u")], [], [], some "abc", none, []⟩) ∧
    ([Elem.form true (some "abc") true, Elem.form true none true] : List Elem)
      ≠ [Elem.form true (some "abc") true, Elem.form true (some "abc") true] :=
  ⟨by decide, by decide, by decide⟩

/-- C3 (amended): applying the HTML Rewriter `apply_token` twice in
sequence, under the request state left by the first application, yields the
same document and state as applying it once, PROVIDED no matching POST form
is immediately followed by another matching POST form (the adjacency under
which `POST_FORM`'s `[^<]*\s<` group consumes the next form's opening `<`
and the scan skips it — see `apply_token_not_idempotent_counterexample`).
Under that proviso the first pass tokenizes every matching form, so
`POST_FORM` no longer matches anywhere and the second pass returns its
input unchanged (no duplicate hidden fields, no duplicate query
parameters). -/
theorem apply_token_idempotent_nonadjacent (freshToken freshToken2 : String)
    (st st1 : RequestState) (html html1 : List Elem)
    (hadj : noAdjacentFormMatches html = true)
    (h : apply_token freshToken st html = Except.ok (html1, st1)) :
    apply_token freshToken2 st1 html1 = Except.ok (html1, st1) := by
  unfold apply_token at h ⊢
  by_cases hc : (!is_logged_in st || !(html.any formMatches)) = true
  · rw [if_pos hc] at h
    rw [Except.ok.injEq, Prod.mk.injEq] at h
    obtain ⟨rfl, rfl⟩ := h
    rw [if_pos hc]
  · rw [if_neg hc] at h
    rcases hf : findEmbeddedToken html with _ | t
    · simp only [hf] at h
      rcases hg : get_server_token freshToken st with e | ⟨t, stx⟩
      · rw [hg] at h
        exact (Except.noConfusion h)
      · rw [hg] at h
        rw [Except.ok.injEq, Prod.mk.injEq] at h
        obtain ⟨rfl, rfl⟩ := h
        rw [no_form_matches_after_rewrite t html hadj]
        simp
    · simp only [hf] at h
      rw [Except.ok.injEq, Prod.mk.injEq] at h
      obtain ⟨rfl, rfl⟩ := h
      rw [no_form_matches_after_rewrite t html hadj]
      simp

/-- C8: the combined confirm-link pass (`CONFIRM_LINK` then
`CONFIRM_LINK_REVERSED`, as composed in `apply_token`) appends
`?token=<t>` to the href of an anchor carrying the confirm-action marker in
either attribute order, exactly when the href has no `?` or quote
character, and it does so exactly once: a doubly-marked link is modified
only by the first pattern, because the appended `?` falsifies the second
pattern's href precondition (second conjunct). -/
theorem confirm_link_rewritten_once (t href : String) (mb ma : Bool) :
    insert_link_token_CLR t (insert_link_token_CL t (Elem.anchor mb ma href))
      = (if (mb || ma) && hrefPlain href then
          Elem.anchor mb ma (href ++ "?" ++ TOKEN_FIELD_NAME ++ "=" ++ t)
        else Elem.anchor mb ma href) ∧
    hrefPlain (href ++ "?" ++ TOKEN_FIELD_NAME ++ "=" ++ t) = false := by
  refine ⟨?_, hrefPlain_append href t⟩
  cases mb <;> cases ma <;> by_cases hp : hrefPlain href = true <;>
    simp_all [insert_link_token_CL, insert_link_token_CLR, hrefPlain_append]


/-- C2 (amended): for every request that is unauthenticated, or whose path
matches the API pattern `^/api\b` (i.e. `/api` followed by end of path or
a non-word character), or whose method is GET, HEAD or OPTIONS, the
validator never rejects: `anti_csrf_before` performs no token comparison
and delegates to the original hook with the state untouched.  (The claim's
broader "path starts with /api" reading is refuted by
`api_path_counterexample`.) -/
theorem exempt_disjunction_never_rejects (freshToken : String) (controllerId : Nat)
    (action : String) (params : List (String × String)) (st : RequestState)
    (h : is_logged_in st = false ∨ api_url_match st.path = true ∨
      st.method = "GET" ∨ st.method = "HEAD" ∨ st.method = "OPTIONS") :
    anti_csrf_before freshToken controllerId action params st
      = Except.ok (RAW_BEFORE controllerId action, st) ∧
    ∀ e, anti_csrf_before freshToken controllerId action params st ≠ Except.error e := by
  have hok := anti_csrf_before_exempt freshToken controllerId action params st
    (is_request_exempt_of st h)
  refine ⟨hok, fun e he => ?_⟩
  rw [hok] at he
  exact Except.noConfusion he

/-- C2 counterexample: the path `/apix` starts with `/api` yet the request
is NOT exempt (the `\b` in `API_URL` requires a word boundary after
`/api`), so an authenticated POST to `/apix` with mismatched tokens is
rejected with 403, contradicting the claim that such requests never
reject. -/
theorem api_path_counterexample :
    ("/apix".toList.take 4 = "/api".toList) ∧
    anti_csrf_before "f" 0 "edit" []
      ⟨"POST", "/apix", [("auth_tkt","u"),("token","a")], [], [("token","b")], none, none, []⟩
      = Except.error (csrf_fail "Could not match session token with form token") ∧
    (csrf_fail "Could not match session token with form token").status = 403 :=
  ⟨by decide, by decide, rfl⟩

/-- C10 (amended): for every request that is exempt per
`is_request_exempt` (unauthenticated, path matching `^/api\b`, or safe
method), `anti_csrf_before` touches no token state at all: it returns the
request state exactly as received, so no cookie is consumed, no response
cookie is set and no parameter is removed.  (The claim's "path starting
with /api" reading is refuted by `api_path_frame_counterexample`.) -/
theorem exempt_requests_touch_no_state (freshToken : String) (controllerId : Nat)
    (action : String) (params : List (String × String)) (st : RequestState)
    (h : is_logged_in st = false ∨ api_url_match st.path = true ∨
      st.method = "GET" ∨ st.method = "HEAD" ∨ st.method = "OPTIONS") :
    anti_csrf_before freshToken controllerId action params st
      = Except.ok (RAW_BEFORE controllerId action, st) ∧
    ∀ call st2, anti_csrf_before freshToken controllerId action params st
        = Except.ok (call, st2) →
      st2.cookies = st.cookies ∧ st2.getParams = st.getParams ∧
        st2.postParams = st.postParams ∧ st2.server_token = st.server_token ∧
        st2.tokenAttr = st.tokenAttr ∧ st2.respCookies = st.respCookies := by
  have hok := anti_csrf_before_exempt freshToken controllerId action params st
    (is_request_exempt_of st h)
  refine ⟨hok, fun call st2 h2 => ?_⟩
  rw [hok, Except.ok.injEq, Prod.mk.injEq] at h2
  obtain ⟨rfl, rfl⟩ := h2
  exact ⟨rfl, rfl, rfl, rfl, rfl, rfl⟩

/-- C10 counterexample: an authenticated POST to `/apix` (a path starting
with `/api`, hence exempt by the claim's characterisation) with matching
tokens is NOT exempt under the code, and `anti_csrf_before` does touch the
token state: the token cookie is consumed and the token POST parameter is
removed. -/
theorem api_path_frame_counterexample :
    ("/apix".toList.take 4 = "/api".toList) ∧
    anti_csrf_before "f" 0 "edit" []
        ⟨"POST", "/apix", [("auth_tkt","u"),("token","tok1")], [], [("token","tok1")],
          none, none, []⟩
      = Except.ok (RAW_BEFORE 0 "edit",
          ⟨"POST", "/apix", [("auth_tkt","u")], [], [], some "tok1", some "tok1", []⟩) ∧
    [(("auth_tkt" : String), ("u" : String))] ≠ [("auth_tkt","u"),("token","tok1")] ∧
    ([] : List (String × String)) ≠ [("token","tok1")] :=
  ⟨by decide, by decide, by decide, by decide⟩

/-- C4 (amended): for every non-exempt request that passes validation, the
wrapped pre-dispatch hook calls through to the original hook with the
controller instance and the action name, but without the keyword
parameters: the original hook receives an empty keyword-parameter set
regardless of the parameters the wrapper was invoked with.  (The claim's
"including all keyword parameters" is refuted by
`params_not_forwarded_counterexample`.) -/
theorem before_hook_receives_controller_action_only (freshToken : String) (controllerId : Nat)
    (action : String) (params : List (String × String)) (st : RequestState)
    (call : BeforeCall) (st2 : RequestState)
    (hex : is_request_exempt st = false)
    (h : anti_csrf_before freshToken controllerId action params st = Except.ok (call, st2)) :
    call = RAW_BEFORE controllerId action ∧
      call.controllerId = controllerId ∧ call.action = action ∧ call.params = [] := by
  unfold anti_csrf_before at h
  simp only [hex, Bool.not_false, if_true] at h
  rcases hs : get_server_token freshToken st with e | ⟨serverTok, st1⟩ <;>
    simp only [hs] at h
  · exact (Except.noConfusion h)
  · rcases hp : get_post_token st1 with e | ⟨postTok, st2x⟩ <;>
      simp only [hp] at h
    · exact (Except.noConfusion h)
    · split at h
      · exact (Except.noConfusion h)
      · rw [Except.ok.injEq, Prod.mk.injEq] at h
        obtain ⟨rfl, rfl⟩ := h
        exact ⟨rfl, rfl, rfl, rfl⟩

/-- C4 counterexample: a non-exempt authenticated POST whose tokens match
(so it passes validation and proceeds), invoked with keyword parameters
`[("key","value")]`; the wrapper calls the original hook with an empty
keyword-parameter set, so the original hook does not receive the same
arguments the wrapper received. -/
theorem params_not_forwarded_counterexample :
    is_request_exempt
        ⟨"POST", "/dataset/edit", [("auth_tkt", "u"), ("token", "abc")], [],
          [("token", "abc")], none, none, []⟩ = false ∧
    anti_csrf_before "f" 7 "edit" [("key", "value")]
        ⟨"POST", "/dataset/edit", [("auth_tkt", "u"), ("token", "abc")], [],
          [("token", "abc")], none, none, []⟩
      = Except.ok ({ controllerId := 7, action := "edit", params := [] },
          ⟨"POST", "/dataset/edit", [("auth_tkt", "u")], [], [], some "abc",
            some "abc", []⟩) ∧
    ({ controllerId := 7, action := "edit", params := [] } : BeforeCall).params
      ≠ [("key", "value")] :=
  ⟨by decide, by decide, by decide⟩


lemma get_post_token_eval (st : RequestState) (hattr : st.tokenAttr = none)
    (hnf : fallbackCond st = false) :
    get_post_token st =
      match getall st.postParams TOKEN_FIELD_NAME with
      | [] => Except.error (csrf_fail "Missing CSRF token in form submission")
      | [t] => Except.ok (t, { st with
          tokenAttr := some t
          postParams := delKey st.postParams TOKEN_FIELD_NAME })
      | _ :: _ :: _ =>
          Except.error (csrf_fail "More than one CSRF token in form submission") := by
  unfold get_post_token
  simp only [hattr, hnf, Bool.false_eq_true, if_false]

/-- C5: with no cached token and the query-string fallback not applying,
`get_post_token` succeeds iff the POST body contains exactly one
occurrence of the token field; zero occurrences abort with the
missing-token failure, two or more (whatever their values, even if one
matches the cookie token) abort with the duplicate-token failure, and the
exactly-one case returns the value, caches it on the request and removes
it from the POST parameter set, after which no token parameter remains. -/
theorem post_token_exactly_one_occurrence (st : RequestState)
    (hattr : st.tokenAttr = none) (hnf : fallbackCond st = false) :
    ((∃ v st2, get_post_token st = Except.ok (v, st2)) ↔
      (getall st.postParams TOKEN_FIELD_NAME).length = 1) ∧
    (getall st.postParams TOKEN_FIELD_NAME = [] →
      get_post_token st = Except.error (csrf_fail "Missing CSRF token in form submission")) ∧
    (∀ v1 v2 rest, getall st.postParams TOKEN_FIELD_NAME = v1 :: v2 :: rest →
      get_post_token st
        = Except.error (csrf_fail "More than one CSRF token in form submission")) ∧
    (∀ v, getall st.postParams TOKEN_FIELD_NAME = [v] →
      get_post_token st = Except.ok (v, { st with
        tokenAttr := some v
        postParams := delKey st.postParams TOKEN_FIELD_NAME }) ∧
      getall (delKey st.postParams TOKEN_FIELD_NAME) TOKEN_FIELD_NAME = []) := by
  have heval := get_post_token_eval st hattr hnf
  refine ⟨?_, ?_, ?_, ?_⟩
  · constructor
    · rintro ⟨v, st2, hok⟩
      rw [heval] at hok
      rcases hg : getall st.postParams TOKEN_FIELD_NAME with _ | ⟨v1, _ | ⟨v2, rest⟩⟩ <;>
        rw [hg] at hok
      · exact (Except.noConfusion hok)
      · rfl
      · exact (Except.noConfusion hok)
    · intro hlen
      rcases hg : getall st.postParams TOKEN_FIELD_NAME with _ | ⟨v1, _ | ⟨v2, rest⟩⟩ <;>
        rw [hg] at hlen <;> simp at hlen
      exact ⟨v1, _, by rw [heval, hg]⟩
  · intro hg
    rw [heval, hg]
  · intro v1 v2 rest hg
    rw [heval, hg]
  · intro v hg
    exact ⟨by rw [heval, hg], getall_delKey st.postParams TOKEN_FIELD_NAME⟩

/-- C6: the query-string fallback guard holds exactly when the POST body is
empty and the query string consists of exactly one parameter which is the
token field; in that case the query value is returned, cached and removed
from the query parameter set; with any additional query parameter present
(length at least 2) and an empty body the request falls through to the
POST-body rule and is rejected as missing token. -/
theorem query_fallback_characterisation (st : RequestState) (hattr : st.tokenAttr = none) :
    (fallbackCond st = true ↔
      st.postParams = [] ∧ ∃ v, st.getParams = [(TOKEN_FIELD_NAME, v)]) ∧
    (∀ v, st.postParams = [] → st.getParams = [(TOKEN_FIELD_NAME, v)] →
      get_post_token st = Except.ok (v, { st with
        tokenAttr := some v
        getParams := delKey st.getParams TOKEN_FIELD_NAME }) ∧
      getall (delKey st.getParams TOKEN_FIELD_NAME) TOKEN_FIELD_NAME = []) ∧
    (st.postParams = [] → 2 ≤ st.getParams.length →
      get_post_token st
        = Except.error (csrf_fail "Missing CSRF token in form submission")) := by
  refine ⟨?_, ?_, ?_⟩
  · unfold fallbackCond
    simp only [Bool.and_eq_true, beq_iff_eq, List.isEmpty_iff]
    constructor
    · rintro ⟨⟨hpost, hlen⟩, hget⟩
      refine ⟨hpost, ?_⟩
      obtain ⟨p, hp⟩ := List.length_eq_one.mp hlen
      rcases p with ⟨a, b⟩
      rw [hp] at hget
      by_cases ha : a = TOKEN_FIELD_NAME
      · subst ha
        exact ⟨b, hp⟩
      · have : (a == TOKEN_FIELD_NAME) = false := beq_eq_false_iff_ne.mpr ha
        simp [getall, this] at hget
    · rintro ⟨hpost, v, hget⟩
      rw [hpost, hget]
      refine ⟨⟨rfl, rfl⟩, ?_⟩
      simp [getall]
  · intro v hpost hget
    constructor
    · unfold get_post_token
      have hfb : fallbackCond st = true := by
        unfold fallbackCond
        rw [hpost, hget]
        simp [getall]
      rw [hattr]
      simp only [hfb, if_true]
      rw [hget]
      simp [getall]
    · rw [hget]
      simp [delKey, getall]
  · intro hpost hlen
    have hnf : fallbackCond st = false := by
      unfold fallbackCond
      have : (st.getParams.length == 1) = false := by
        simp only [beq_eq_false_iff_ne]
        omega
      simp [this]
    rw [get_post_token_eval st hattr hnf]
    rw [hpost]
    simp [getall]

lemma set_server_token_self (st : RequestState) (t : String)
    (h : st.server_token = some t) : { st with server_token := some t } = st := by
  cases st
  simp_all

lemma get_server_token_respCookies (freshToken : String) (st st1 : RequestState) (t : String)
    (h : get_server_token freshToken st = Except.ok (t, st1)) :
    (st.server_token = none → List.lookup TOKEN_FIELD_NAME st.cookies = none →
      st1.respCookies = st.respCookies ++ [⟨TOKEN_FIELD_NAME, freshToken, 600, true⟩]) ∧
    ((∃ c, List.lookup TOKEN_FIELD_NAME st.cookies = some c) →
      st1.respCookies = st.respCookies) ∧
    ((∃ t0, st.server_token = some t0) → st1.respCookies = st.respCookies) := by
  unfold get_server_token at h
  rcases hb : st.server_token with _ | t0 <;>
    rcases hc : List.lookup TOKEN_FIELD_NAME st.cookies with _ | c <;>
      simp only [hb, hc] at h <;> split at h
  all_goals
    first
    | exact (Except.noConfusion h)
    | (rw [Except.ok.injEq, Prod.mk.injEq] at h
       obtain ⟨rfl, rfl⟩ := h
       refine ⟨?_, ?_, ?_⟩ <;> simp_all)

lemma is_logged_in_get_server_token (freshToken : String) (st st1 : RequestState) (t : String)
    (h : get_server_token freshToken st = Except.ok (t, st1)) :
    is_logged_in st1 = is_logged_in st := by
  unfold get_server_token at h
  rcases hb : st.server_token with _ | t0 <;>
    rcases hc : List.lookup TOKEN_FIELD_NAME st.cookies with _ | c <;>
      simp only [hb, hc] at h <;> split at h
  all_goals
    first
    | exact (Except.noConfusion h)
    | (rw [Except.ok.injEq, Prod.mk.injEq] at h
       obtain ⟨rfl, rfl⟩ := h
       unfold is_logged_in
       simp only []
       rw [lookup_delKey "auth_tkt" TOKEN_FIELD_NAME st.cookies (by decide)])
    | (rw [Except.ok.injEq, Prod.mk.injEq] at h
       obtain ⟨rfl, rfl⟩ := h
       rfl)

/-- C7: once `get_server_token` succeeds, every further call in the same
request returns the same token and the identical state (so N calls issue
at most one cookie); a new response cookie (HTTP-only, max-age 600) is
appended exactly when there is neither a cached token nor a token cookie
on the incoming request; and two separate render passes within the
request embed that same token value in their fragments. -/
theorem server_token_idempotent_per_request (freshToken freshToken2 : String)
    (st st1 : RequestState) (t1 : String)
    (h : get_server_token freshToken st = Except.ok (t1, st1)) :
    get_server_token freshToken2 st1 = Except.ok (t1, st1) ∧
    (st.server_token = none → List.lookup TOKEN_FIELD_NAME st.cookies = none →
      st1.respCookies = st.respCookies ++ [⟨TOKEN_FIELD_NAME, freshToken, 600, true⟩]) ∧
    ((∃ c, List.lookup TOKEN_FIELD_NAME st.cookies = some c) →
      st1.respCookies = st.respCookies) ∧
    ((∃ t0, st.server_token = some t0) → st1.respCookies = st.respCookies) ∧
    (∀ s1 s2 : String, is_logged_in st = true →
      apply_token freshToken st [Elem.text s1, Elem.form true none true]
        = Except.ok ([Elem.text s1, Elem.form true (some t1) true], st1) ∧
      apply_token freshToken2 st1 [Elem.text s2, Elem.form true none true]
        = Except.ok ([Elem.text s2, Elem.form true (some t1) true], st1)) := by
  obtain ⟨hcache, hblank⟩ := get_server_token_ok freshToken st st1 t1 h
  have hsecond : get_server_token freshToken2 st1 = Except.ok (t1, st1) := by
    unfold get_server_token
    simp only [hcache, hblank, Bool.false_eq_true, if_false]
    rw [set_server_token_self st1 t1 hcache]
  obtain ⟨hr1, hr2, hr3⟩ := get_server_token_respCookies freshToken st st1 t1 h
  refine ⟨hsecond, hr1, hr2, hr3, ?_⟩
  intro s1 s2 hlog
  have hlog1 : is_logged_in st1 = true := by
    rw [is_logged_in_get_server_token freshToken st st1 t1 h]
    exact hlog
  constructor
  · unfold apply_token
    simp [hlog, findEmbeddedToken, formMatches, h, insert_form_token,
      post_form_sub, insert_link_token_CL, insert_link_token_CLR]
  · unfold apply_token
    simp [hlog1, findEmbeddedToken, formMatches, hsecond, insert_form_token,
      post_form_sub, insert_link_token_CL, insert_link_token_CLR]

/-- C9: `csrf_fail` surfaces the fixed generic 403 message to the client
while logging the specific reason; a blank (whitespace-only) resolved
server token is a hard failure of `get_server_token` (never replaced by a
fallback value); and every failure of `anti_csrf_before` reaches the
client as status 403 with that same generic message. -/
theorem failures_generic_403 :
    (∀ message, (csrf_fail message).status = 403 ∧
      (csrf_fail message).client = "Your form submission could not be validated" ∧
      (csrf_fail message).log = message) ∧
    (∀ freshToken : String, ∀ st : RequestState, ∀ w : String,
      st.server_token = none →
      List.lookup TOKEN_FIELD_NAME st.cookies = some w → isBlank w = true →
      get_server_token freshToken st
        = Except.error (csrf_fail "Server token is blank")) ∧
    (∀ (freshToken : String) (controllerId : Nat) (action : String)
        (params : List (String × String)) (st : RequestState) (e : CsrfFailure),
      anti_csrf_before freshToken controllerId action params st = Except.error e →
      e.status = 403 ∧ e.client = "Your form submission could not be validated") := by
  refine ⟨fun message => ⟨rfl, rfl, rfl⟩, ?_, ?_⟩
  · intro freshToken st w hb hc hw
    unfold get_server_token
    simp only [hb, hc, hw, if_true]
  · intro freshToken controllerId action params st e h
    unfold anti_csrf_before at h
    split at h
    · rcases hs : get_server_token freshToken st with e0 | ⟨serverTok, st1⟩ <;>
        simp only [hs] at h
      · rw [Except.error.injEq] at h
        subst h
        rw [get_server_token_error freshToken st e0 hs]
        exact ⟨rfl, rfl⟩
      · rcases hp : get_post_token st1 with e0 | ⟨postTok, st2⟩ <;>
          simp only [hp] at h
        · rw [Except.error.injEq] at h
          subst h
          rcases get_post_token_error st1 e0 hp with he | he <;> rw [he] <;>
            exact ⟨rfl, rfl⟩
        · split at h
          · rw [Except.error.injEq] at h
            subst h
            exact ⟨rfl, rfl⟩
          · exact (Except.noConfusion h)
    · exact (Except.noConfusion h)

/-- C1: on a non-exempt request whose server token resolves, the request
proceeds to the original pre-dispatch behaviour iff the submitted token
resolved by `get_post_token` is equal to the server token; a differing
submitted token, or failure to resolve one, aborts with 403 before the
original hook runs.  In particular (third conjunct) a token embedded by
the Rewriter for a session cookie is accepted when submitted back with the
same cookie, and (fourth conjunct) a submitted token different from the
cookie token is rejected. -/
theorem validator_accepts_iff_tokens_match (freshToken : String) (controllerId : Nat)
    (action : String) (params : List (String × String)) (st : RequestState)
    (serverTok : String) (st1 : RequestState)
    (hex : is_request_exempt st = false)
    (hs : get_server_token freshToken st = Except.ok (serverTok, st1)) :
    (∀ postTok st2, get_post_token st1 = Except.ok (postTok, st2) →
      (postTok = serverTok →
        anti_csrf_before freshToken controllerId action params st
          = Except.ok (RAW_BEFORE controllerId action, st2)) ∧
      (postTok ≠ serverTok →
        anti_csrf_before freshToken controllerId action params st
          = Except.error (csrf_fail "Could not match session token with form token"))) ∧
    (∀ e, get_post_token st1 = Except.error e →
      anti_csrf_before freshToken controllerId action params st = Except.error e ∧
      e.status = 403) ∧
    (∀ T : String, isBlank T = false →
      apply_token freshToken
          ⟨"GET", "/dataset/new", [("auth_tkt", "u"), (TOKEN_FIELD_NAME, T)], [], [],
            none, none, []⟩
          [Elem.form true none true]
        = Except.ok ([Elem.form true (some T) true],
            ⟨"GET", "/dataset/new", [("auth_tkt", "u")], [], [], some T, none, []⟩) ∧
      anti_csrf_before freshToken controllerId action params
          ⟨"POST", "/dataset/edit", [("auth_tkt", "u"), (TOKEN_FIELD_NAME, T)], [],
            [(TOKEN_FIELD_NAME, T)], none, none, []⟩
        = Except.ok (RAW_BEFORE controllerId action,
            ⟨"POST", "/dataset/edit", [("auth_tkt", "u")], [], [], some T, some T, []⟩)) ∧
    (∀ T1 T2 : String, isBlank T1 = false → T2 ≠ T1 →
      anti_csrf_before freshToken controllerId action params
          ⟨"POST", "/dataset/edit", [("auth_tkt", "u"), (TOKEN_FIELD_NAME, T1)], [],
            [(TOKEN_FIELD_NAME, T2)], none, none, []⟩
        = Except.error (csrf_fail "Could not match session token with form token")) := by
  refine ⟨?_, ?_, ?_, ?_⟩
  · intro postTok st2 hp
    unfold anti_csrf_before
    simp only [hex, Bool.not_false, if_true, hs, hp]
    constructor
    · intro heq
      subst heq
      simp
    · intro hne
      have : (serverTok != postTok) = true := bne_iff_ne.mpr (fun hh => hne hh.symm)
      simp [this]
  · intro e hp
    have h1 : anti_csrf_before freshToken controllerId action params st
        = Except.error e := by
      unfold anti_csrf_before
      simp only [hex, Bool.not_false, if_true, hs, hp]
    refine ⟨h1, ?_⟩
    rcases get_post_token_error st1 e hp with he | he <;> rw [he] <;> rfl
  · intro T hT
    have hapi : api_url_match "/dataset/new" = false := by decide
    have hapi2 : api_url_match "/dataset/edit" = false := by decide
    constructor
    · unfold apply_token
      simp [is_logged_in, findEmbeddedToken, formMatches, get_server_token,
        TOKEN_FIELD_NAME, delKey, hT, insert_form_token, post_form_sub,
        insert_link_token_CL, insert_link_token_CLR, List.lookup, List.filter]
    · unfold anti_csrf_before
      have hexempt : is_request_exempt
          ⟨"POST", "/dataset/edit", [("auth_tkt", "u"), (TOKEN_FIELD_NAME, T)], [],
            [(TOKEN_FIELD_NAME, T)], none, none, []⟩ = false := by
        simp [is_request_exempt, is_logged_in, hapi2, TOKEN_FIELD_NAME]
      simp only [hexempt, Bool.not_false, if_true]
      have hsrv : get_server_token freshToken
          ⟨"POST", "/dataset/edit", [("auth_tkt", "u"), (TOKEN_FIELD_NAME, T)], [],
            [(TOKEN_FIELD_NAME, T)], none, none, []⟩
          = Except.ok (T, ⟨"POST", "/dataset/edit", [("auth_tkt", "u")], [],
              [(TOKEN_FIELD_NAME, T)], some T, none, []⟩) := by
        unfold get_server_token
        simp [TOKEN_FIELD_NAME, delKey, hT, List.lookup, List.filter]
      have hpost : get_post_token
          ⟨"POST", "/dataset/edit", [("auth_tkt", "u")], [],
            [(TOKEN_FIELD_NAME, T)], some T, none, []⟩
          = Except.ok (T, ⟨"POST", "/dataset/edit", [("auth_tkt", "u")], [], [],
              some T, some T, []⟩) := by
        unfold get_post_token
        simp [fallbackCond, getall, delKey, TOKEN_FIELD_NAME]
      simp only [hsrv, hpost, bne_self_eq_false, Bool.false_eq_true, if_false]
  · intro T1 T2 hT1 hne
    have hapi2 : api_url_match "/dataset/edit" = false := by decide
    unfold anti_csrf_before
    have hexempt : is_request_exempt
        ⟨"POST", "/dataset/edit", [("auth_tkt", "u"), (TOKEN_FIELD_NAME, T1)], [],
          [(TOKEN_FIELD_NAME, T2)], none, none, []⟩ = false := by
      simp [is_request_exempt, is_logged_in, hapi2, TOKEN_FIELD_NAME]
    simp only [hexempt, Bool.not_false, if_true]
    have hsrv : get_server_token freshToken
        ⟨"POST", "/dataset/edit", [("auth_tkt", "u"), (TOKEN_FIELD_NAME, T1)], [],
          [(TOKEN_FIELD_NAME, T2)], none, none, []⟩
        = Except.ok (T1, ⟨"POST", "/dataset/edit", [("auth_tkt", "u")], [],
            [(TOKEN_FIELD_NAME, T2)], some T1, none, []⟩) := by
      unfold get_server_token
      simp [TOKEN_FIELD_NAME, delKey, hT1, List.lookup, List.filter]
    have hpost : get_post_token
        ⟨"POST", "/dataset/edit", [("auth_tkt", "u")], [],
          [(TOKEN_FIELD_NAME, T2)], some T1, none, []⟩
        = Except.ok (T2, ⟨"POST", "/dataset/edit", [("auth_tkt", "u")], [], [],
            some T1, some T2, []⟩) := by
      unfold get_post_token
      simp [fallbackCond, getall, delKey, TOKEN_FIELD_NAME]
    have hbne : (T1 != T2) = true := bne_iff_ne.mpr (fun hh => hne hh.symm)
    simp only [hsrv, hpost, hbne, if_true]

/-- Witness for C1 at a concrete non-exempt request whose cookie and POST
token agree. -/
theorem validator_accepts_iff_tokens_match_witness :
    is_request_exempt
        ⟨"POST", "/dataset/edit", [("auth_tkt", "u"), ("token", "abc")], [],
          [("token", "abc")], none, none, []⟩ = false ∧
    anti_csrf_before "f" 0 "edit" []
        ⟨"POST", "/dataset/edit", [("auth_tkt", "u"), ("token", "abc")], [],
          [("token", "abc")], none, none, []⟩
      = Except.ok (RAW_BEFORE 0 "edit",
          ⟨"POST", "/dataset/edit", [("auth_tkt", "u")], [], [], some "abc",
            some "abc", []⟩) :=
  ⟨by decide,
    ((validator_accepts_iff_tokens_match "f" 0 "edit" []
        ⟨"POST", "/dataset/edit", [("auth_tkt", "u"), ("token", "abc")], [],
          [("token", "abc")], none, none, []⟩
        "abc"
        ⟨"POST", "/dataset/edit", [("auth_tkt", "u")], [], [("token", "abc")],
          some "abc", none, []⟩
        (by decide) (by decide)).1
      "abc"
      ⟨"POST", "/dataset/edit", [("auth_tkt", "u")], [], [], some "abc",
        some "abc", []⟩
      (by decide)).1 rfl⟩

/-- Witness for C2 at a concrete GET request. -/
theorem exempt_disjunction_never_rejects_witness :
    anti_csrf_before "f" 0 "index" []
        ⟨"GET", "/dataset", [("auth_tkt", "u"), ("token", "abc")], [],
          [("token", "bad")], none, none, []⟩
      = Except.ok (RAW_BEFORE 0 "index",
          ⟨"GET", "/dataset", [("auth_tkt", "u"), ("token", "abc")], [],
            [("token", "bad")], none, none, []⟩) :=
  (exempt_disjunction_never_rejects "f" 0 "index" []
      ⟨"GET", "/dataset", [("auth_tkt", "u"), ("token", "abc")], [],
        [("token", "bad")], none, none, []⟩
      (Or.inr (Or.inr (Or.inl rfl)))).1

/-- Witness for C3 (amended): a second rewriter pass over the
already-injected output of a non-adjacent (single-form) document leaves it
unchanged. -/
theorem apply_token_idempotent_nonadjacent_witness :
    apply_token "g"
        ⟨"GET", "/x", [("auth_tkt", "u")], [], [], some "abc", none, []⟩
        [Elem.form true (some "abc") true]
      = Except.ok ([Elem.form true (some "abc") true],
          ⟨"GET", "/x", [("auth_tkt", "u")], [], [], some "abc", none, []⟩) :=
  apply_token_idempotent_nonadjacent "f" "g"
    ⟨"GET", "/x", [("auth_tkt", "u"), ("token", "abc")], [], [], none, none, []⟩
    ⟨"GET", "/x", [("auth_tkt", "u")], [], [], some "abc", none, []⟩
    [Elem.form true none true] [Elem.form true (some "abc") true]
    (by decide) (by decide)

/-- Witness for C4 at a concrete non-exempt call that passes validation. -/
theorem before_hook_receives_controller_action_only_witness :
    ({ controllerId := 7, action := "edit", params := [] } : BeforeCall)
        = RAW_BEFORE 7 "edit" ∧
    ({ controllerId := 7, action := "edit", params := [] } : BeforeCall).params = [] :=
  ⟨(before_hook_receives_controller_action_only "f" 7 "edit" [("key", "value")]
      ⟨"POST", "/dataset/edit", [("auth_tkt", "u"), ("token", "abc")], [],
        [("token", "abc")], none, none, []⟩
      { controllerId := 7, action := "edit", params := [] }
      ⟨"POST", "/dataset/edit", [("auth_tkt", "u")], [], [], some "abc",
        some "abc", []⟩ (by decide) (by decide)).1,
    (before_hook_receives_controller_action_only "f" 7 "edit" [("key", "value")]
      ⟨"POST", "/dataset/edit", [("auth_tkt", "u"), ("token", "abc")], [],
        [("token", "abc")], none, none, []⟩
      { controllerId := 7, action := "edit", params := [] }
      ⟨"POST", "/dataset/edit", [("auth_tkt", "u")], [], [], some "abc",
        some "abc", []⟩ (by decide) (by decide)).2.2.2⟩

/-- Witness for C5 at a POST body with exactly one token field. -/
theorem post_token_exactly_one_occurrence_witness :
    fallbackCond ⟨"POST", "/p", [], [], [("token", "a")], none, none, []⟩ = false ∧
    (∃ v st2, get_post_token ⟨"POST", "/p", [], [], [("token", "a")], none, none, []⟩
        = Except.ok (v, st2)) :=
  ⟨by decide,
    (post_token_exactly_one_occurrence
        ⟨"POST", "/p", [], [], [("token", "a")], none, none, []⟩
        rfl (by decide)).1.mpr (by decide)⟩

/-- Witness for C6 at a request carrying the token only on the query
string. -/
theorem query_fallback_characterisation_witness :
    get_post_token ⟨"POST", "/confirm", [], [("token", "abc123")], [], none, none, []⟩
      = Except.ok ("abc123",
          ⟨"POST", "/confirm", [], [], [], none, some "abc123", []⟩) :=
  ((query_fallback_characterisation
      ⟨"POST", "/confirm", [], [("token", "abc123")], [], none, none, []⟩
      rfl).2.1 "abc123" rfl rfl).1

/-- Witness for C7: the second resolution returns the same token and the
same state. -/
theorem server_token_idempotent_per_request_witness :
    get_server_token "g" ⟨"GET", "/x", [("auth_tkt", "u")], [], [], some "abc", none, []⟩
      = Except.ok ("abc",
          ⟨"GET", "/x", [("auth_tkt", "u")], [], [], some "abc", none, []⟩) :=
  (server_token_idempotent_per_request "f" "g"
      ⟨"GET", "/x", [("auth_tkt", "u"), ("token", "abc")], [], [], none, none, []⟩
      ⟨"GET", "/x", [("auth_tkt", "u")], [], [], some "abc", none, []⟩
      "abc" (by decide)).1

/-- Witness for C9 at a whitespace-only token cookie. -/
theorem failures_generic_403_witness :
    (csrf_fail "m").status = 403 ∧
    get_server_token "f"
        ⟨"POST", "/p", [("auth_tkt", "u"), ("token", "  ")], [], [], none, none, []⟩
      = Except.error (csrf_fail "Server token is blank") :=
  ⟨(failures_generic_403.1 "m").1,
    failures_generic_403.2.1 "f"
      ⟨"POST", "/p", [("auth_tkt", "u"), ("token", "  ")], [], [], none, none, []⟩
      "  " rfl (by decide) (by decide)⟩

/-- Witness for C10 at a concrete exempt GET request. -/
theorem exempt_requests_touch_no_state_witness :
    anti_csrf_before "f" 0 "read" []
        ⟨"GET", "/dataset", [("auth_tkt", "u"), ("token", "abc")], [("x", "y")],
          [], none, none, []⟩
      = Except.ok (RAW_BEFORE 0 "read",
          ⟨"GET", "/dataset", [("auth_tkt", "u"), ("token", "abc")], [("x", "y")],
            [], none, none, []⟩) :=
  (exempt_requests_touch_no_state "f" 0 "read" []
      ⟨"GET", "/dataset", [("auth_tkt", "u"), ("token", "abc")], [("x", "y")],
        [], none, none, []⟩
      (Or.inr (Or.inr (Or.inl rfl)))).1

end AntiCsrf
